import Mathlib

/-!
Shallow embedding of `src/app.py`, the Streamlit front end of a hotel
booking system backed by PostgreSQL.  Dates are modelled as integers
counting days (so Python `(b - a).days` is `b - a`), money as rationals
(the source's float arithmetic modelled exactly), and data frames as
lists of rows.  Database-side objects that are not part of this
repository's source (the `room_status_view` view and the lifecycle
stored procedures) are modelled from the specification and marked as
such in their doc comments.
-/

namespace Hotel

/-- One observable action on a database connection, in the order the
context manager performs them. -/
inductive DbAction where
  | commit
  | rollback
  | close
deriving DecidableEq

/-- Embedding of `get_db` (src/app.py:82-93).  `op` is the outcome of the
code run while the connection is yielded (together with the trailing
`conn.commit()`, all inside the `try`).  On normal completion the
transaction is committed; on an exception it is rolled back and the
exception re-raised; the connection is closed in both cases (`finally`).
The second component records the connection actions in order. -/
def getDbRun {ε α : Type} (op : Except ε α) : Except ε α × List DbAction :=
  match op with
  | .ok a => (.ok a, [.commit, .close])
  | .error e => (.error e, [.rollback, .close])

/-- Embedding of `run_query` (src/app.py:96-98): a read executed inside
`get_db`. -/
def run_query {ε α : Type} (op : Except ε α) : Except ε α × List DbAction :=
  getDbRun op

/-- Embedding of `run_procedure` (src/app.py:101-104): a cursor `execute`
inside `get_db`. -/
def run_procedure {ε α : Type} (op : Except ε α) : Except ε α × List DbAction :=
  getDbRun op

/-- Arguments of a `CALL make_booking(%s, %s, %s, %s)` issued by the
booking form (src/app.py:289). -/
structure MakeBookingCall where
  guest_id : ℤ
  room_id : ℤ
  check_in : ℤ
  check_out : ℤ
deriving DecidableEq

/-- Embedding of the booking form's cost preview (src/app.py:276-279):
when `date_out > date_in` it displays `nights = (date_out - date_in).days`
and `cost = nights * float(price_per_night)`; otherwise nothing. -/
def costPreview (dIn dOut : ℤ) (price : ℚ) : Option (ℤ × ℚ) :=
  if dIn < dOut then
    some (dOut - dIn, ((dOut - dIn : ℤ) : ℚ) * price)
  else
    none

/-- Embedding of the booking form submit handler (src/app.py:283-293):
if `date_out <= date_in` it reports a validation error and calls nothing;
otherwise it issues `CALL make_booking(g_id, r_id, date_in, date_out)`. -/
def bookingSubmit (g r dIn dOut : ℤ) : Except String MakeBookingCall :=
  if dOut ≤ dIn then
    .error "Дата выезда должна быть позже даты заезда!"
  else
    .ok ⟨g, r, dIn, dOut⟩

/-- Row inserted into `guests` by the registration form. -/
structure GuestInsert where
  full_name : String
  passport : String
  phone : String
deriving DecidableEq

/-- Embedding of the guest registration submit handler
(src/app.py:315-326): an empty `full_name` or an empty `passport`
(Python falsiness of `""` under `not name or not passport`) is rejected
with a validation error and nothing is inserted; otherwise the row
`(full_name, passport, phone)` is inserted into `guests`. -/
def registerGuestSubmit (name passport phone : String) : Except String GuestInsert :=
  if name = "" ∨ passport = "" then
    .error "ФИО и паспорт обязательны!"
  else
    .ok ⟨name, passport, phone⟩

/-- Modelled from the spec: `room_status_view` is a database-side view
not in this repository's source.  Per the spec (§3, RoomStatusView),
each room's derived `status` is `occupied` when an active booking covers
the current date and `free` otherwise; the view renders these two values
as the strings `"Занят"` and `"Свободен"` that the UI code compares
against (src/app.py:110, 148, 202). -/
inductive RoomStatus where
  | occupied
  | free
deriving DecidableEq

/-- Modelled from the spec: how `room_status_view` renders a room's
derived status as the string in its `status` column. -/
def renderStatus : RoomStatus → String
  | .occupied => "Занят"
  | .free => "Свободен"

/-- Embedding of the dashboard's occupied-rooms metric (src/app.py:148):
`(rooms_df["status"] == "Занят").sum()` over the statuses read from
`room_status_view`. -/
def occupiedRooms (statuses : List String) : ℕ :=
  (statuses.filter (fun s => s = "Занят")).length

/-- Embedding of the dashboard's free-rooms metric (src/app.py:147-149):
`free_rooms = total_rooms - occupied_rooms` with `total_rooms =
len(rooms_df)`. -/
def freeRooms (statuses : List String) : ℕ :=
  statuses.length - occupiedRooms statuses

/-- Row of the `bookings` table as read by the dashboard
(src/app.py:145) and joined by the revenue query. -/
structure BookingRow where
  booking_id : ℤ
  room_id : ℤ
  total_cost : ℚ
  status : String
deriving DecidableEq

/-- Row of the `rooms` table (join key columns only). -/
structure RoomRow where
  room_id : ℤ
  type_id : ℤ
deriving DecidableEq

/-- Row of the `room_types` table (join key and display columns). -/
structure RoomTypeRow where
  type_id : ℤ
  type_name : String
deriving DecidableEq

/-- Embedding of the dashboard's overall revenue metric (src/app.py:151):
`bookings_df.loc[bookings_df["status"] == "active", "total_cost"].sum()`,
recomputed from the `bookings` table on every render. -/
def dashboardRevenue (bs : List BookingRow) : ℚ :=
  ((bs.filter (fun b => b.status = "active")).map (fun b => b.total_cost)).sum

/-- Embedding of the inner joins of the dashboard's per-type revenue query
(src/app.py:175-182): `bookings JOIN rooms ON room_id JOIN room_types ON
type_id WHERE bookings.status = 'active'`, one output row per matching
triple. -/
def activeTypeJoin (bs : List BookingRow) (rs : List RoomRow)
    (ts : List RoomTypeRow) : List (BookingRow × RoomRow × RoomTypeRow) :=
  (bs.filter (fun b => b.status = "active")).flatMap fun b =>
    (rs.filter (fun r => r.room_id = b.room_id)).flatMap fun r =>
      (ts.filter (fun t => t.type_id = r.type_id)).map fun t => (b, r, t)

/-- Embedding of one group of the per-type revenue query
(src/app.py:175-182): `SUM(b.total_cost) ... GROUP BY rt.type_name`,
i.e. the sum of `total_cost` over the joined active rows whose
`type_name` is `tname`. -/
def revenueByType (bs : List BookingRow) (rs : List RoomRow)
    (ts : List RoomTypeRow) (tname : String) : ℚ :=
  (((activeTypeJoin bs rs ts).filter
      (fun x => x.2.2.type_name = tname)).map
    (fun x => x.1.total_cost)).sum

/-- Following the spec's words (§4.4): revenue is "the sum of
`total_cost` over bookings with `status = active`"; a booking with any
other status contributes nothing. -/
def specRevenue (bs : List BookingRow) : ℚ :=
  (bs.map (fun b => if b.status = "active" then b.total_cost else 0)).sum

/-- Does the pattern match a prefix of the text, case-insensitively
(`re.IGNORECASE`)?  One position of Python `re` matching as invoked by
pandas `Series.str.contains(pat, case=False)` (whose default is
`regex=True`), modelled on the regex fragment of literal characters and
the `.` metacharacter: a literal matches its own character up to case,
`.` matches any character. -/
def patMatchesHere : List Char → List Char → Bool
  | [], _ => true
  | _ :: _, [] => false
  | c :: ps, h :: hs =>
      (decide (c = '.') || decide (c.toLower = h.toLower)) &&
        patMatchesHere ps hs

/-- Python `re.search` semantics: the pattern matches at some position of
the text. -/
def patSearch (ps : List Char) : List Char → Bool
  | [] => patMatchesHere ps []
  | h :: hs => patMatchesHere ps (h :: hs) || patSearch ps hs

/-- Embedding of pandas `Series.str.contains(search, case=False,
na=False)` (src/app.py:403) on a non-null value: the default
`regex=True` compiles `search` as a regular expression and searches for
a match anywhere in the string, case-insensitively. -/
def pdStrContainsCI (pat s : String) : Bool :=
  patSearch pat.data s.data

/-- Row of `booking_history_view` as read by the history page
(src/app.py:392-398); `guest` is the `гость` column and may be null. -/
structure HistoryRow where
  history_id : ℤ
  guest : Option String
  action : String
deriving DecidableEq

/-- Embedding of the history page's search filter (src/app.py:401-403):
an empty search string (falsy in Python) leaves the table unfiltered;
otherwise rows are kept when `str.contains(search, case=False,
na=False)` holds of the guest column, null guests dropped (`na=False`). -/
def historyFilter (search : String) (df : List HistoryRow) :
    List HistoryRow :=
  if search = "" then df
  else df.filter fun e =>
    match e.guest with
    | none => false
    | some g => pdStrContainsCI search g

/-- Does `n` occur contiguously in the text? -/
def occursWithin (n : List Char) : List Char → Bool
  | [] => n.isEmpty
  | h :: hs => n.isPrefixOf (h :: hs) || occursWithin n hs

/-- Case-insensitive substring containment: `needle`, lowercased, occurs
contiguously in `hay`, lowercased. -/
def containsSubCI (needle hay : String) : Bool :=
  occursWithin (needle.data.map Char.toLower) (hay.data.map Char.toLower)

/-- Following the spec's words (§4.3): history entries are queryable by
guest name as a case-insensitive substring; entries with a missing guest
name are excluded; an empty search shows all entries. -/
def specHistoryFilter (search : String) (df : List HistoryRow) :
    List HistoryRow :=
  if search = "" then df
  else df.filter fun e =>
    match e.guest with
    | none => false
    | some g => containsSubCI search g

/-- Row of the bookings page table (src/app.py:344-352), with the columns
the cancellation section actually uses. -/
structure PageBookingRow where
  booking_id : ℤ
  status : String
deriving DecidableEq

/-- Embedding of the cancellation section (src/app.py:363-379): the page
filters the listed table to rows with status `"active"` and offers
exactly those rows' `booking_id`s in the selection box; pressing the
button calls `cancel_booking` with one of the offered ids. -/
def offeredCancelIds (df : List PageBookingRow) : List ℤ :=
  (df.filter (fun b => b.status = "active")).map (fun b => b.booking_id)

/-- Domain errors of the booking lifecycle operations (spec §7). -/
inductive BookingError where
  | validationError
  | availabilityConflict
deriving DecidableEq

/-- A row of the booking ledger (`bookings` table) as the lifecycle
operations see it. -/
structure LedgerBooking where
  guest_id : ℤ
  room_id : ℤ
  check_in : ℤ
  check_out : ℤ
  total_cost : ℚ
  status : String
deriving DecidableEq

/-- Half-open overlap of `[ci₁, co₁)` and `[ci₂, co₂)` (spec glossary). -/
def overlaps (ci₁ co₁ ci₂ co₂ : ℤ) : Bool :=
  decide (ci₁ < co₂) && decide (ci₂ < co₁)

/-- Modelled from the spec: the Availability Engine (§4.1), which is
database-side and not in this repository's source.
`is_available(room_id, check_in, check_out)` is true iff no booking with
status `active` for that room has a range overlapping the requested
half-open range. -/
def is_available (ledger : List LedgerBooking) (room ci co : ℤ) : Bool :=
  ledger.all fun b =>
    !(decide (b.status = "active") && decide (b.room_id = room) &&
      overlaps b.check_in b.check_out ci co)

/-- Modelled from the spec: the `make_booking` stored procedure (§4.2) is
database-side and not in this repository's source.  Per the spec it runs
as one atomic transaction: a non-positive date range fails with
`ValidationError`, an unavailable room fails with
`AvailabilityConflict`, and otherwise a booking with `status = active`
and `total_cost = nights × price_per_night` is inserted.  The result is
the new ledger; on failure the ledger is unchanged (full rollback). -/
def make_booking (ledger : List LedgerBooking) (g room ci co : ℤ)
    (price : ℚ) : Except BookingError (List LedgerBooking) :=
  if co ≤ ci then .error .validationError
  else if is_available ledger room ci co then
    .ok (⟨g, room, ci, co, ((co - ci : ℤ) : ℚ) * price, "active"⟩ :: ledger)
  else .error .availabilityConflict

/-- Modelled from the spec (§5): lifecycle operations execute as atomic
serialized transactions, so two concurrent calls execute in one of the
two serial orders.  `serialPair` runs the first call, then the second on
the ledger the first left behind (unchanged when the first failed), and
returns both outcomes. -/
def serialPair (ledger : List LedgerBooking)
    (g₁ r₁ ci₁ co₁ : ℤ) (p₁ : ℚ) (g₂ r₂ ci₂ co₂ : ℤ) (p₂ : ℚ) :
    Except BookingError (List LedgerBooking) ×
      Except BookingError (List LedgerBooking) :=
  match make_booking ledger g₁ r₁ ci₁ co₁ p₁ with
  | .ok s₁ => (.ok s₁, make_booking s₁ g₂ r₂ ci₂ co₂ p₂)
  | .error e => (.error e, make_booking ledger g₂ r₂ ci₂ co₂ p₂)

/-- Did an `Except` computation succeed? -/
def isOkE {ε α : Type} : Except ε α → Bool
  | .ok _ => true
  | .error _ => false

/-- C1: for every room price `p` and dates with `check_out > check_in`,
the booking form's cost preview is shown and equals
`(check_out - check_in).days × p`, i.e. `total_cost = nights ×
price_per_night` at booking time; moreover whatever pair `(nights, cost)`
the preview shows satisfies `cost = nights × p`. -/
theorem costPreview_eq_nights_mul_price (dIn dOut : ℤ) (price : ℚ)
    (h : dIn < dOut) :
    costPreview dIn dOut price =
      some (dOut - dIn, ((dOut - dIn : ℤ) : ℚ) * price) ∧
    ∀ n c, costPreview dIn dOut price = some (n, c) → c = (n : ℚ) * price := by
  refine ⟨by simp [costPreview, h], ?_⟩
  intro n c hnc
  simp only [costPreview, if_pos h, Option.some.injEq, Prod.mk.injEq] at hnc
  obtain ⟨hn, hc⟩ := hnc
  rw [← hn, ← hc]

theorem costPreview_eq_nights_mul_price_witness :
    costPreview 0 3 2000 = some (3, 6000) ∧
    ∀ n c, costPreview 0 3 2000 = some (n, c) → c = (n : ℚ) * 2000 := by
  have h := costPreview_eq_nights_mul_price 0 3 2000 (by decide)
  norm_num at h ⊢
  exact h

/-- C2: every operation run through the `get_db` context manager (hence
every `run_query` and `run_procedure`) commits the transaction when the
body completes without exception, rolls it back before re-raising when
the body raises, and closes the connection last in both cases. -/
theorem getDbRun_commit_rollback_close {ε α : Type} (op : Except ε α) :
    (getDbRun op).2.getLast? = some .close ∧
    run_query op = getDbRun op ∧ run_procedure op = getDbRun op ∧
    (∀ a, op = .ok a →
      (getDbRun op).1 = .ok a ∧
      DbAction.commit ∈ (getDbRun op).2 ∧
      DbAction.rollback ∉ (getDbRun op).2) ∧
    (∀ e, op = .error e →
      (getDbRun op).1 = .error e ∧
      DbAction.rollback ∈ (getDbRun op).2 ∧
      DbAction.commit ∉ (getDbRun op).2) := by
  cases op with
  | ok a => refine ⟨rfl, rfl, rfl, ?_, ?_⟩ <;> intro x hx <;> simp_all [getDbRun]
  | error e => refine ⟨rfl, rfl, rfl, ?_, ?_⟩ <;> intro x hx <;> simp_all [getDbRun]

theorem getDbRun_commit_rollback_close_witness :
    (getDbRun (ε := String) (α := ℕ) (.error "boom")).1 = .error "boom" ∧
    DbAction.rollback ∈ (getDbRun (ε := String) (α := ℕ) (.error "boom")).2 ∧
    DbAction.commit ∉ (getDbRun (ε := String) (α := ℕ) (.error "boom")).2 :=
  (getDbRun_commit_rollback_close (.error "boom")).2.2.2.2 "boom" rfl

/-- C3: the guest registration form rejects a submission with empty
`full_name` or empty `passport` with a validation error and performs no
insert; when both are non-empty it inserts `(full_name, passport, phone)`
into `guests`. -/
theorem registerGuest_validation (name passport phone : String) :
    ((name = "" ∨ passport = "") →
      registerGuestSubmit name passport phone =
        .error "ФИО и паспорт обязательны!") ∧
    (name ≠ "" → passport ≠ "" →
      registerGuestSubmit name passport phone =
        .ok ⟨name, passport, phone⟩) := by
  constructor
  · intro h
    simp [registerGuestSubmit, h]
  · intro h1 h2
    simp [registerGuestSubmit, h1, h2]

theorem registerGuest_validation_witness :
    registerGuestSubmit "Иванов Иван" "4510 123456" "" =
      .ok ⟨"Иванов Иван", "4510 123456", ""⟩ :=
  (registerGuest_validation "Иванов Иван" "4510 123456" "").2
    (by decide) (by decide)

/-- C4: the booking form submit handler fails with a validation error and
never invokes `make_booking` when `check_out ≤ check_in`, and any
`make_booking` invocation it issues has `check_out > check_in` (with the
selected guest, room and dates as arguments). -/
theorem bookingSubmit_validation (g r dIn dOut : ℤ) :
    (dOut ≤ dIn →
      bookingSubmit g r dIn dOut =
        .error "Дата выезда должна быть позже даты заезда!") ∧
    (∀ call, bookingSubmit g r dIn dOut = .ok call →
      dIn < dOut ∧ call = ⟨g, r, dIn, dOut⟩) := by
  constructor
  · intro h
    simp [bookingSubmit, h]
  · intro call hcall
    by_cases h : dOut ≤ dIn
    · simp [bookingSubmit, h] at hcall
    · have hlt : dIn < dOut := lt_of_not_ge h
      simp [bookingSubmit, h] at hcall
      exact ⟨hlt, hcall.symm⟩

theorem bookingSubmit_validation_witness :
    bookingSubmit 1 101 5 5 =
      .error "Дата выезда должна быть позже даты заезда!" :=
  (bookingSubmit_validation 1 101 5 5).1 (by decide)

/-- C10: the booking form's date widgets (src/app.py:272-273) enforce
`check_in ≥ today` and `check_out ≥ today + 1`; under those widget
constraints, every `make_booking` invocation issued by the submit handler
has `check_in ≥ today` and `check_out ≥ today + 1`, so the application
never requests a booking that starts in the past. -/
theorem bookingSubmit_dates_not_past (g r dIn dOut today : ℤ)
    (hIn : today ≤ dIn) (hOut : today + 1 ≤ dOut) :
    ∀ call, bookingSubmit g r dIn dOut = .ok call →
      today ≤ call.check_in ∧ today + 1 ≤ call.check_out := by
  intro call hcall
  by_cases h : dOut ≤ dIn
  · simp [bookingSubmit, h] at hcall
  · simp [bookingSubmit, h] at hcall
    rw [← hcall]
    exact ⟨hIn, hOut⟩

theorem bookingSubmit_dates_not_past_witness :
    (10 : ℤ) ≤ (MakeBookingCall.mk 1 101 10 12).check_in ∧
    (10 : ℤ) + 1 ≤ (MakeBookingCall.mk 1 101 10 12).check_out :=
  bookingSubmit_dates_not_past 1 101 10 12 10 (by decide) (by decide)
    ⟨1, 101, 10, 12⟩ rfl

theorem occupiedRooms_map_render (vs : List RoomStatus) :
    occupiedRooms (vs.map renderStatus) =
      (vs.filter (fun v => v = .occupied)).length := by
  induction vs with
  | nil => rfl
  | cons v t ih =>
    cases v <;> simp_all [occupiedRooms, renderStatus, List.filter_cons]

theorem filter_occupied_add_filter_free (vs : List RoomStatus) :
    (vs.filter (fun v => v = .occupied)).length +
      (vs.filter (fun v => v = .free)).length = vs.length := by
  induction vs with
  | nil => rfl
  | cons v t ih =>
    cases v <;> simp [List.filter_cons] <;> omega

/-- C5: on the statuses produced by the room status view, the dashboard
counts a room as occupied exactly when its derived status is `occupied`,
counts it as free exactly when it is `free`, and the free count plus the
occupied count equals the total number of rooms. -/
theorem dashboard_occupancy_counts (vs : List RoomStatus) :
    occupiedRooms (vs.map renderStatus) =
      (vs.filter (fun v => v = .occupied)).length ∧
    freeRooms (vs.map renderStatus) =
      (vs.filter (fun v => v = .free)).length ∧
    freeRooms (vs.map renderStatus) + occupiedRooms (vs.map renderStatus) =
      vs.length := by
  have hocc := occupiedRooms_map_render vs
  have hsum := filter_occupied_add_filter_free vs
  have hlen : (vs.map renderStatus).length = vs.length := List.length_map _ _
  have hle : (vs.filter (fun v => v = .occupied)).length ≤ vs.length :=
    List.length_filter_le _ _
  refine ⟨hocc, ?_, ?_⟩
  · unfold freeRooms
    rw [hocc, hlen]
    omega
  · unfold freeRooms
    rw [hocc, hlen]
    omega

/-- C6: the dashboard's revenue figures are recomputed from the
`bookings`, `rooms` and `room_types` tables alone: the overall figure
equals the spec's sum of `total_cost` over bookings with status
`active`, adding a `cancelled` booking changes neither the overall
figure nor any per-type group, and adding an `active` booking adds
exactly its `total_cost` to the overall figure. -/
theorem dashboard_revenue_active_only (bs : List BookingRow)
    (rs : List RoomRow) (ts : List RoomTypeRow) (tname : String)
    (b : BookingRow) :
    dashboardRevenue bs = specRevenue bs ∧
    (b.status = "cancelled" →
      dashboardRevenue (b :: bs) = dashboardRevenue bs ∧
      revenueByType (b :: bs) rs ts tname = revenueByType bs rs ts tname) ∧
    (b.status = "active" →
      dashboardRevenue (b :: bs) = b.total_cost + dashboardRevenue bs) := by
  refine ⟨?_, ?_, ?_⟩
  · induction bs with
    | nil => rfl
    | cons x t ih =>
      by_cases hx : x.status = "active" <;>
        simp [dashboardRevenue, specRevenue, List.filter_cons, hx] at ih ⊢ <;>
        simp [ih]
  · intro hb
    have hb' : ¬ b.status = "active" := by
      rw [hb]
      decide
    constructor
    · simp [dashboardRevenue, List.filter_cons, hb']
    · simp [revenueByType, activeTypeJoin, List.filter_cons, hb']
  · intro hb
    simp [dashboardRevenue, List.filter_cons, hb]

theorem dashboard_revenue_active_only_witness :
    dashboardRevenue
        [⟨1, 101, 6000, "active"⟩, ⟨2, 102, 500, "cancelled"⟩] =
      specRevenue [⟨1, 101, 6000, "active"⟩, ⟨2, 102, 500, "cancelled"⟩] ∧
    dashboardRevenue
        (⟨3, 103, 999, "cancelled"⟩ ::
          [⟨1, 101, 6000, "active"⟩, ⟨2, 102, 500, "cancelled"⟩]) =
      dashboardRevenue
        [⟨1, 101, 6000, "active"⟩, ⟨2, 102, 500, "cancelled"⟩] := by
  have h := dashboard_revenue_active_only
    [⟨1, 101, 6000, "active"⟩, ⟨2, 102, 500, "cancelled"⟩]
    [] [] "Люкс" ⟨3, 103, 999, "cancelled"⟩
  exact ⟨h.1, (h.2.1 rfl).1⟩

/-- C7 counterexample: with search string `"."` and a single entry whose
guest is `"Anna"`, the page keeps the entry (pandas treats the search
string as a regular expression, and `.` matches any character) although
`"."` is not a substring of `"Anna"` in any case, so the displayed
result is not the substring filter the claim describes. -/
theorem historyFilter_dot_counterexample :
    historyFilter "." [⟨1, some "Anna", "created"⟩] =
      [⟨1, some "Anna", "created"⟩] ∧
    containsSubCI "." "Anna" = false ∧
    historyFilter "." [⟨1, some "Anna", "created"⟩] ≠
      specHistoryFilter "." [⟨1, some "Anna", "created"⟩] := by
  decide

theorem patMatchesHere_nodot (p : List Char) :
    (∀ c ∈ p, c ≠ '.') → ∀ h : List Char,
      patMatchesHere p h =
        (p.map Char.toLower).isPrefixOf (h.map Char.toLower) := by
  induction p with
  | nil =>
    intro _ h
    cases h <;> rfl
  | cons c ps ih =>
    intro hnd h
    have hc : ¬ c = '.' := hnd c (List.mem_cons_self c ps)
    have hps : ∀ x ∈ ps, x ≠ '.' := fun x hx => hnd x (List.mem_cons_of_mem c hx)
    cases h with
    | nil => rfl
    | cons a hs =>
      simp only [patMatchesHere, List.map_cons, List.isPrefixOf,
        ih hps hs]
      rw [decide_eq_false hc]
      simp only [Bool.false_or]
      cases hd : decide (c.toLower = a.toLower) with
      | false =>
        have : (c.toLower == a.toLower) = false := by
          simpa [beq_iff_eq] using of_decide_eq_false hd
        simp [this]
      | true =>
        have : (c.toLower == a.toLower) = true := by
          simpa [beq_iff_eq] using of_decide_eq_true hd
        simp [this]

theorem patSearch_nodot (p : List Char) (hnd : ∀ c ∈ p, c ≠ '.') :
    ∀ h : List Char,
      patSearch p h = occursWithin (p.map Char.toLower) (h.map Char.toLower) := by
  intro h
  induction h with
  | nil =>
    have := patMatchesHere_nodot p hnd []
    simp only [patSearch, this, List.map_nil, occursWithin]
    cases p <;> simp [List.isPrefixOf, List.isEmpty]
  | cons a hs ih =>
    simp only [patSearch, List.map_cons, occursWithin, ih,
      patMatchesHere_nodot p hnd (a :: hs), List.map_cons]

/-- C7 amended: the claim holds for search strings made of characters
that are not regular-expression metacharacters (here: alphanumeric
characters and spaces).  For such searches the page shows exactly the
entries whose guest name contains the search string as a
case-insensitive substring, entries with a null guest name are excluded,
and an empty search shows every entry; for other search strings the page
applies regular-expression matching instead of substring containment. -/
theorem historyFilter_plain_search_substring (search : String)
    (df : List HistoryRow)
    (hplain : ∀ c ∈ search.data, c.isAlphanum = true ∨ c = ' ') :
    historyFilter search df = specHistoryFilter search df := by
  by_cases hs : search = ""
  · simp [historyFilter, specHistoryFilter, hs]
  · have hnd : ∀ c ∈ search.data, c ≠ '.' := by
      intro c hc
      rcases hplain c hc with h | h
      · intro hdot
        rw [hdot] at h
        exact absurd h (by decide)
      · intro hdot
        rw [hdot] at h
        exact absurd h (by decide)
    unfold historyFilter specHistoryFilter
    rw [if_neg hs, if_neg hs]
    apply List.filter_congr
    intro e _
    cases e.guest with
    | none => rfl
    | some g =>
      simp only [pdStrContainsCI, containsSubCI, patSearch_nodot search.data hnd]

theorem historyFilter_plain_search_substring_witness :
    historyFilter "ann" [⟨1, some "Anna", "created"⟩, ⟨2, none, "cancelled"⟩] =
      specHistoryFilter "ann"
        [⟨1, some "Anna", "created"⟩, ⟨2, none, "cancelled"⟩] :=
  historyFilter_plain_search_substring "ann"
    [⟨1, some "Anna", "created"⟩, ⟨2, none, "cancelled"⟩] (by decide)

/-- C8: the cancellation UI offers only bookings listed with status
`active`: every booking id it can pass to `cancel_booking` belongs to a
row of the rendered table whose status was `active`, and when no such
row exists nothing is offered, so `cancel_booking` cannot be invoked at
all. -/
theorem cancel_offered_only_active (df : List PageBookingRow) (id : ℤ) :
    (id ∈ offeredCancelIds df →
      ∃ row ∈ df, row.booking_id = id ∧ row.status = "active") ∧
    ((∀ row ∈ df, row.status ≠ "active") → offeredCancelIds df = []) := by
  constructor
  · intro hid
    simp only [offeredCancelIds, List.mem_map, List.mem_filter,
      decide_eq_true_eq] at hid
    obtain ⟨row, ⟨hmem, hst⟩, hbid⟩ := hid
    exact ⟨row, hmem, hbid, hst⟩
  · intro hnone
    simp only [offeredCancelIds, List.map_eq_nil_iff, List.filter_eq_nil_iff,
      decide_eq_true_eq]
    exact hnone

theorem cancel_offered_only_active_witness :
    ((7 : ℤ) ∈ offeredCancelIds [⟨7, "active"⟩, ⟨8, "cancelled"⟩] →
      ∃ row ∈ [(⟨7, "active"⟩ : PageBookingRow), ⟨8, "cancelled"⟩],
        row.booking_id = 7 ∧ row.status = "active") ∧
    offeredCancelIds [(⟨9, "cancelled"⟩ : PageBookingRow)] = [] :=
  ⟨(cancel_offered_only_active [⟨7, "active"⟩, ⟨8, "cancelled"⟩] 7).1,
   (cancel_offered_only_active [⟨9, "cancelled"⟩] 9).2 (by decide)⟩

theorem is_available_cons_overlap (s : List LedgerBooking)
    (g room ci₁ co₁ ci₂ co₂ : ℤ) (c : ℚ)
    (hov : overlaps ci₁ co₁ ci₂ co₂ = true) :
    is_available (⟨g, room, ci₁, co₁, c, "active"⟩ :: s) room ci₂ co₂ =
      false := by
  simp only [is_available, List.all_cons, hov, decide_eq_true_eq]
  simp

theorem serialPair_exclusive (s : List LedgerBooking)
    (g₁ g₂ room ci₁ co₁ ci₂ co₂ : ℤ) (p₁ p₂ : ℚ)
    (h₁ : ci₁ < co₁) (h₂ : ci₂ < co₂)
    (hov : overlaps ci₁ co₁ ci₂ co₂ = true)
    (havail : is_available s room ci₁ co₁ = true ∨
      is_available s room ci₂ co₂ = true) :
    (isOkE (serialPair s g₁ room ci₁ co₁ p₁ g₂ room ci₂ co₂ p₂).1 = true ∧
      (serialPair s g₁ room ci₁ co₁ p₁ g₂ room ci₂ co₂ p₂).2 =
        .error .availabilityConflict) ∨
    ((serialPair s g₁ room ci₁ co₁ p₁ g₂ room ci₂ co₂ p₂).1 =
        .error .availabilityConflict ∧
      isOkE (serialPair s g₁ room ci₁ co₁ p₁ g₂ room ci₂ co₂ p₂).2 = true) := by
  have hn₁ : ¬ co₁ ≤ ci₁ := not_le.mpr h₁
  have hn₂ : ¬ co₂ ≤ ci₂ := not_le.mpr h₂
  by_cases hA : is_available s room ci₁ co₁ = true
  · left
    have hfirst : make_booking s g₁ room ci₁ co₁ p₁ =
        .ok (⟨g₁, room, ci₁, co₁, ((co₁ - ci₁ : ℤ) : ℚ) * p₁, "active"⟩ :: s) := by
      simp [make_booking, hn₁, hA]
    have hsecond : ∀ c : ℚ, make_booking
        (⟨g₁, room, ci₁, co₁, c, "active"⟩ :: s)
        g₂ room ci₂ co₂ p₂ = .error .availabilityConflict := by
      intro c
      have hb := is_available_cons_overlap s g₁ room ci₁ co₁ ci₂ co₂ c hov
      simp [make_booking, hn₂, hb]
    constructor
    · simp only [serialPair, hfirst]
      rfl
    · simp only [serialPair, hfirst]
      exact hsecond _
  · right
    have hB : is_available s room ci₂ co₂ = true := by
      rcases havail with h | h
      · exact absurd h hA
      · exact h
    have hfirst : make_booking s g₁ room ci₁ co₁ p₁ =
        .error .availabilityConflict := by
      simp only [make_booking, if_neg hn₁]
      rw [if_neg hA]
    have hsecond : make_booking s g₂ room ci₂ co₂ p₂ =
        .ok (⟨g₂, room, ci₂, co₂, ((co₂ - ci₂ : ℤ) : ℚ) * p₂, "active"⟩ :: s) := by
      simp [make_booking, hn₂, hB]
    simp [serialPair, hfirst, hsecond, isOkE]

/-- C9: two concurrent `make_booking` calls for the same room with
overlapping half-open date ranges, executed under the spec's serialized
atomic-transaction model, cannot both succeed: in either serialization
order exactly one call succeeds and the other fails with
`AvailabilityConflict` (provided the room is available for at least one
of the two requests, the only situation in which either call could
succeed at all). -/
theorem make_booking_concurrent_exclusive (s : List LedgerBooking)
    (g₁ g₂ room ci₁ co₁ ci₂ co₂ : ℤ) (p₁ p₂ : ℚ)
    (h₁ : ci₁ < co₁) (h₂ : ci₂ < co₂)
    (hov : ci₁ < co₂ ∧ ci₂ < co₁)
    (havail : is_available s room ci₁ co₁ = true ∨
      is_available s room ci₂ co₂ = true) :
    ((isOkE (serialPair s g₁ room ci₁ co₁ p₁ g₂ room ci₂ co₂ p₂).1 = true ∧
        (serialPair s g₁ room ci₁ co₁ p₁ g₂ room ci₂ co₂ p₂).2 =
          .error .availabilityConflict) ∨
      ((serialPair s g₁ room ci₁ co₁ p₁ g₂ room ci₂ co₂ p₂).1 =
          .error .availabilityConflict ∧
        isOkE (serialPair s g₁ room ci₁ co₁ p₁ g₂ room ci₂ co₂ p₂).2 =
          true)) ∧
    ((isOkE (serialPair s g₂ room ci₂ co₂ p₂ g₁ room ci₁ co₁ p₁).1 = true ∧
        (serialPair s g₂ room ci₂ co₂ p₂ g₁ room ci₁ co₁ p₁).2 =
          .error .availabilityConflict) ∨
      ((serialPair s g₂ room ci₂ co₂ p₂ g₁ room ci₁ co₁ p₁).1 =
          .error .availabilityConflict ∧
        isOkE (serialPair s g₂ room ci₂ co₂ p₂ g₁ room ci₁ co₁ p₁).2 =
          true)) := by
  have hov₁ : overlaps ci₁ co₁ ci₂ co₂ = true := by
    simp only [overlaps, Bool.and_eq_true, decide_eq_true_eq]
    exact ⟨hov.1, hov.2⟩
  have hov₂ : overlaps ci₂ co₂ ci₁ co₁ = true := by
    simp only [overlaps, Bool.and_eq_true, decide_eq_true_eq]
    exact ⟨hov.2, hov.1⟩
  exact ⟨serialPair_exclusive s g₁ g₂ room ci₁ co₁ ci₂ co₂ p₁ p₂
      h₁ h₂ hov₁ havail,
    serialPair_exclusive s g₂ g₁ room ci₂ co₂ ci₁ co₁ p₂ p₁
      h₂ h₁ hov₂ havail.symm⟩

theorem make_booking_concurrent_exclusive_witness :
    ((isOkE (serialPair [] 1 101 0 3 2000 2 101 1 2 2000).1 = true ∧
        (serialPair [] 1 101 0 3 2000 2 101 1 2 2000).2 =
          .error .availabilityConflict) ∨
      ((serialPair [] 1 101 0 3 2000 2 101 1 2 2000).1 =
          .error .availabilityConflict ∧
        isOkE (serialPair [] 1 101 0 3 2000 2 101 1 2 2000).2 = true)) ∧
    ((isOkE (serialPair [] 2 101 1 2 2000 1 101 0 3 2000).1 = true ∧
        (serialPair [] 2 101 1 2 2000 1 101 0 3 2000).2 =
          .error .availabilityConflict) ∨
      ((serialPair [] 2 101 1 2 2000 1 101 0 3 2000).1 =
          .error .availabilityConflict ∧
        isOkE (serialPair [] 2 101 1 2 2000 1 101 0 3 2000).2 = true)) :=
  make_booking_concurrent_exclusive [] 1 2 101 0 3 1 2 2000 2000
    (by decide) (by decide) ⟨by decide, by decide⟩ (Or.inl (by decide))

end Hotel
